import Mathlib

/-!
Verification development for the start-page single-page application
(`src/website/src/app/page.tsx`).

The page's pure logic is shallowly embedded below: the theme data model and
catalog, the WMO weather-code bucketing, CSS-variable theme application
(including the accent-glow colour derivation), the SVG theme import/export
pipeline, the localStorage-backed settings, search submission, and the
drag-and-drop import / deletion state transitions.  Browser facilities that
the code calls (DOMParser, JSON, parseInt, encodeURIComponent, Math.round,
String.prototype methods) are modelled explicitly as executable Lean
functions over strings and lists, with comments pointing at the modelled
behaviour.  Machine floats never matter at the values involved (see the
comments at the temperature conversions), so numbers are modelled as
`Int`/`Nat`.
-/

set_option maxRecDepth 100000

namespace Website

/-! ### Data model (page.tsx lines 7-33) -/

inductive TempUnit where
  | C
  | F
deriving DecidableEq, Repr

inductive TimeFormat where
  | h24
  | h12
deriving DecidableEq, Repr

inductive Engine where
  | google
  | ddg
  | bing
deriving DecidableEq, Repr

structure Settings where
  tempUnit : TempUnit
  timeFormat : TimeFormat
  searchEngine : Engine
  themeName : String
deriving DecidableEq, Repr

structure ThemeColors where
  background : String
  f_high : String
  f_med : String
  f_low : String
  f_inv : String
  b_high : String
  b_med : String
  b_low : String
  b_inv : String
deriving DecidableEq, Repr

structure ThemeEntry where
  name : String
  display : String
  category : String
  colors : ThemeColors
  isCustom : Bool := false
deriving DecidableEq, Repr

/-! ### WMO helper (page.tsx lines 114-125)

`describeWMO` receives the numeric `weathercode` field of the weather API
response; the codes are integral, so the argument is modelled as `Int`. -/

def describeWMO (code : Int) : String × String :=
  if code = 0 then ("clear", "○")
  else if code ≤ 2 then ("partly cloudy", "◑")
  else if code = 3 then ("overcast", "●")
  else if code ≤ 49 then ("foggy", "≋")
  else if code ≤ 59 then ("drizzle", "·")
  else if code ≤ 69 then ("rain", "▾")
  else if code ≤ 79 then ("snow", "✦")
  else if code ≤ 84 then ("showers", "▿")
  else if code ≤ 99 then ("storm", "⚡")
  else ("unknown", "?")

/-! ### Temperature conversion (page.tsx lines 288-290)

`displayTemp` shows `Math.round(t * 9/5 + 32)` when Fahrenheit is selected.
For integral `t`, `t*9/5+32` is a rational with denominator 10 whose distance
from any half-integer is at least 1/10, far above double rounding error at
these magnitudes, so JS floats agree with exact rational arithmetic here.
`Math.round x = ⌊x + 1/2⌋`, hence `round(t*9/5+32) = ⌊(18t+325)/10⌋`. -/

def c2f (t : Int) : Int := (18 * t + 325) / 10

def displayTemp (u : TempUnit) (t : Int) : String :=
  match u with
  | .F => toString (c2f t) ++ "°F"
  | .C => toString t ++ "°C"

/-- Modelled from the spec: the reverse Fahrenheit→Celsius conversion
`round((f-32)*5/9)` appears only in the spec's round-trip property, not in the
source (the page never converts back).  `round((f-32)*5/9) = ⌊(10f-311)/18⌋`
by the same half-up rounding as `c2f`.  (Lean's `/` on `Int` is Euclidean
division, which agrees with floor division for the positive divisors used
here.) -/
def f2c (f : Int) : Int := (10 * f - 311) / 18

/-! ### Theme catalog (page.tsx lines 37-58) -/

def BUILTIN_THEMES : List ThemeEntry := [
  { name := "dark", display := "Dark", category := "Original",
    colors := { background := "#0a0a0a", f_high := "#ffffff", f_med := "#a3a3a3",
                f_low := "#737373", f_inv := "#0a0a0a", b_high := "#404040",
                b_med := "#262626", b_low := "#171717", b_inv := "#4ade80" } },
  { name := "light", display := "Light", category := "Original",
    colors := { background := "#ffffff", f_high := "#0a0a0a", f_med := "#525252",
                f_low := "#737373", f_inv := "#ffffff", b_high := "#d4d4d4",
                b_med := "#e5e5e5", b_low := "#f5f5f5", b_inv := "#3b82f6" } },
  { name := "slate", display := "Slate", category := "Original",
    colors := { background := "#0f172a", f_high := "#f1f5f9", f_med := "#cbd5e1",
                f_low := "#94a3b8", f_inv := "#0f172a", b_high := "#475569",
                b_med := "#334155", b_low := "#1e293b", b_inv := "#38bdf8" } },
  { name := "boysenberry", display := "Boysenberry", category := "Hundred Rabbits",
    colors := { background := "#171717", f_high := "#efefef", f_med := "#999999",
                f_low := "#873260", f_inv := "#919191", b_high := "#373737",
                b_med := "#272727", b_low := "#000000", b_inv := "#873260" } },
  { name := "gotham", display := "Gotham", category := "Hundred Rabbits",
    colors := { background := "#0A0F14", f_high := "#FFFFFF", f_med := "#98D1CE",
                f_low := "#EDB54B", f_inv := "#C33027", b_high := "#093748",
                b_med := "#081F2D", b_low := "#10151B", b_inv := "#8FAF9F" } },
  { name := "noir", display := "Noir", category := "Hundred Rabbits",
    colors := { background := "#222222", f_high := "#ffffff", f_med := "#cccccc",
                f_low := "#999999", f_inv := "#ffffff", b_high := "#888888",
                b_med := "#666666", b_low := "#444444", b_inv := "#000000" } },
  { name := "nord", display := "Nord", category := "Hundred Rabbits",
    colors := { background := "#2E3440", f_high := "#ECEFF4", f_med := "#9DC4C3",
                f_low := "#B4B8C0", f_inv := "#5E81AC", b_high := "#5E81AC",
                b_med := "#434C5E", b_low := "#3B4252", b_inv := "#ABCDCC" } },
  { name := "op-1", display := "OP-1", category := "Hundred Rabbits",
    colors := { background := "#0E0D11", f_high := "#EFEFEF", f_med := "#26936F",
                f_low := "#A5435A", f_inv := "#0E0D11", b_high := "#191A26",
                b_med := "#14151F", b_low := "#101119", b_inv := "#9F9FB3" } },
  { name := "teenage", display := "Teenage", category := "Hundred Rabbits",
    colors := { background := "#a1a1a1", f_high := "#222222", f_med := "#e00b30",
                f_low := "#888888", f_inv := "#ffffff", b_high := "#555555",
                b_med := "#fbba2d", b_low := "#b3b3b3", b_inv := "#0e7242" } },
  { name := "zenburn", display := "Zenburn", category := "Hundred Rabbits",
    colors := { background := "#464646", f_high := "#DCDCCC", f_med := "#DCA3A3",
                f_low := "#7F9F7F", f_inv := "#000D18", b_high := "#262626",
                b_med := "#333333", b_low := "#3F3F3F", b_inv := "#8FAF9F" } }]

/-! ### Application state

The component state relevant to the verified transitions: the persisted
`Settings` and the persisted custom-theme list (page.tsx lines 174-175).
The state-updating handlers below return the new state; the source's
`setX`/`localStorage.setItem` pairs (`saveSettings`, `saveCustomThemes`,
lines 186-194) both write the same value, so one field per datum suffices. -/

structure AppState where
  settings : Settings
  customThemes : List ThemeEntry
deriving DecidableEq, Repr

/-- `allThemes = [...BUILTIN_THEMES, ...customThemes]` (page.tsx line 180). -/
def allThemes (st : AppState) : List ThemeEntry :=
  BUILTIN_THEMES ++ st.customThemes

/-- First built-in theme, `BUILTIN_THEMES[0]` (the dark theme). -/
def firstBuiltin : ThemeEntry := BUILTIN_THEMES.get ⟨0, by decide⟩

/-- `allThemes.find(t => t.name === settings.themeName) ?? BUILTIN_THEMES[0]`
(page.tsx line 181). -/
def activeTheme (st : AppState) : ThemeEntry :=
  match (allThemes st).find? (fun t => t.name = st.settings.themeName) with
  | some t => t
  | none => firstBuiltin

/-! ### Deletion (page.tsx lines 331-335 and 501-507) -/

/-- The theme-modal `onDelete` callback: filters the deleted name out of the
custom list and, when the deleted theme was active, resets the active theme
name to "dark". -/
def onDelete (st : AppState) (name : String) : AppState :=
  let updated := st.customThemes.filter (fun t => t.name ≠ name)
  let st1 : AppState := { st with customThemes := updated }
  if st.settings.themeName = name then
    { st1 with settings := { st1.settings with themeName := "dark" } }
  else st1

/-- The modal's `handleDelete`: a no-op unless the selected theme is in
`customThemes`; otherwise `onDelete(selected)` followed by `onSelect("dark")`,
which saves the captured settings with `themeName := "dark"` (so the active
theme always ends up "dark" after a successful delete). -/
def handleDelete (st : AppState) (selected : String) : AppState :=
  if (st.customThemes.find? (fun t => t.name = selected)).isSome then
    let st1 := onDelete st selected
    { st1 with settings := { st.settings with themeName := "dark" } }
  else st

/-! ### Theme application (page.tsx lines 62-75) -/

/-- `String.prototype.replace` with a string pattern: replaces the first
occurrence only (list-of-characters worker). -/
def replaceFirstList (pat rep : List Char) : List Char → List Char
  | [] => []
  | c :: cs =>
    if pat.isPrefixOf (c :: cs) then rep ++ (c :: cs).drop pat.length
    else c :: replaceFirstList pat rep cs

/-- `s.replace(pat, rep)` for a string pattern (first occurrence only). -/
def replaceFirst (s pat rep : String) : String :=
  ⟨replaceFirstList pat.data rep.data s.data⟩

/-- The digits `parseInt(-, 16)` accepts. -/
def hexDigits : List Char := "0123456789abcdefABCDEF".data

def isHexDigitChar (c : Char) : Bool := decide (c ∈ hexDigits)

/-- Value of a hex digit (0 on other characters, which never receive it). -/
def hexVal (c : Char) : Nat :=
  if 48 ≤ c.toNat ∧ c.toNat ≤ 57 then c.toNat - 48
  else if 97 ≤ c.toNat ∧ c.toNat ≤ 102 then c.toNat - 87
  else if 65 ≤ c.toNat ∧ c.toNat ≤ 70 then c.toNat - 55
  else 0

/-- `parseInt(s, 16)`: the value of the maximal leading run of hex digits,
`none` (NaN) when that run is empty.  (The sign/whitespace/`0x` handling of
`parseInt` is irrelevant to the strings this page feeds it and is omitted.) -/
def parseIntHex (s : String) : Option Nat :=
  let digits := s.data.takeWhile isHexDigitChar
  if digits.isEmpty then none
  else some (digits.foldl (fun a c => 16 * a + hexVal c) 0)

/-- The rgba template literal of `applyTheme`. -/
def rgbaStr (r g b : Nat) : String :=
  "rgba(" ++ toString r ++ "," ++ toString g ++ "," ++ toString b ++ ",0.12)"

/-- `hex.split("").map(c => c+c).join("")`: double each character. -/
def doubleChars (hex : List Char) : List Char :=
  (hex.map (fun c => [c, c])).flatten

/-- The `--green-glow` value derived from the accent colour `b_inv`
(page.tsx lines 72-74): strip the first "#", expand a 3-character hex to 6 by
doubling, parse as hex, and emit the byte triple at alpha 0.12.  JS bitwise
ops act on ToInt32 of the parsed value; `n % 2^32` followed by the byte
extractions reproduces exactly the bits `(n>>16)&255`, `(n>>8)&255`,
`n&255`.  A NaN parse behaves as 0 under ToInt32. -/
def hexSix (hex : String) : String :=
  if hex.length = 3 then (⟨doubleChars hex.data⟩ : String) else hex

def greenGlow (accent : String) : String :=
  match parseIntHex (hexSix (replaceFirst accent "#" "")) with
  | some n0 =>
    rgbaStr (n0 % 4294967296 / 65536 % 256) (n0 % 4294967296 / 256 % 256)
      (n0 % 4294967296 % 256)
  | none => rgbaStr 0 0 0

/-- `applyTheme` (page.tsx lines 62-75): the nine CSS custom properties set on
the document root, in order. -/
def applyTheme (colors : ThemeColors) : List (String × String) :=
  [("--bg", colors.background),
   ("--surface", colors.b_low),
   ("--border", colors.b_med),
   ("--border2", colors.b_high),
   ("--text", colors.f_high),
   ("--muted", colors.f_low),
   ("--dim", colors.b_med),
   ("--green", colors.b_inv),
   ("--green-glow", greenGlow colors.b_inv)]

/-! ### SVG theme import and export (page.tsx lines 77-102)

`parseSVGTheme` feeds the dropped file through `DOMParser` and reads the
`fill` attribute of the elements with the nine required identifiers.  The
browser's XML parse is modelled by an executable scanner: a first pass splits
the input into tag bodies (text between `<` and the matching `>`, where a `>`
inside a quoted attribute value does not close the tag), and a second pass
reads `name='value'` / `name="value"` attributes out of a tag body.  The
scanner is total; ill-formed XML, which `DOMParser` signals by injecting a
`parsererror` element, is modelled by the document containing an element of
that name (`hasParserError`). -/

structure SplitState where
  cur : Option (List Char)
  quote : Option Char
  tags : List (List Char)

/-- One character of the tag splitter: outside tags, `<` opens a tag; inside
a tag, quotes toggle the in-value state and an unquoted `>` completes the
tag body (quotes included, most recent tag first). -/
def splitStep (st : SplitState) (c : Char) : SplitState :=
  match st.cur with
  | none => if c = '<' then { st with cur := some [] } else st
  | some acc =>
    match st.quote with
    | some q =>
      if c = q then { st with cur := some (c :: acc), quote := none }
      else { st with cur := some (c :: acc) }
    | none =>
      if c = '\x27' ∨ c = '"' then
        { st with cur := some (c :: acc), quote := some c }
      else if c = '>' then
        { cur := none, quote := none, tags := acc.reverse :: st.tags }
      else { st with cur := some (c :: acc) }

def splitTags (s : String) : List (List Char) :=
  ((s.data.foldl splitStep ⟨none, none, []⟩).tags).reverse

def isSpaceChar (c : Char) : Bool :=
  c = ' ' ∨ c = '\t' ∨ c = '\n' ∨ c = '\r'

/-- Attribute-reader phases for one tag body: between tokens, reading a
name, just after `=`, or inside a quoted value (name and value accumulate
reversed). -/
inductive AttrPhase where
  | between
  | name (acc : List Char)
  | afterEq (nm : List Char)
  | value (nm : List Char) (q : Char) (acc : List Char)

structure AttrState where
  phase : AttrPhase
  attrs : List (String × String)

def attrStep (st : AttrState) (c : Char) : AttrState :=
  match st.phase with
  | .between =>
    if isSpaceChar c ∨ c = '/' then st
    else { st with phase := .name [c] }
  | .name acc =>
    if c = '=' then { st with phase := .afterEq acc }
    else if isSpaceChar c then { st with phase := .between }
    else { st with phase := .name (c :: acc) }
  | .afterEq nm =>
    if c = '\x27' ∨ c = '"' then { st with phase := .value nm c [] }
    else { st with phase := .between }
  | .value nm q acc =>
    if c = q then
      { phase := .between,
        attrs := ((⟨nm.reverse⟩ : String), (⟨acc.reverse⟩ : String)) :: st.attrs }
    else { st with phase := .value nm q (c :: acc) }

/-- Attributes of a tag body, in document order (the initial token, the
element name, carries no `=` and is discarded, as is a trailing `/`). -/
def parseAttrs (tag : List Char) : List (String × String) :=
  ((tag.foldl attrStep ⟨.between, []⟩).attrs).reverse

def tagName (tag : List Char) : String :=
  ⟨tag.takeWhile (fun c => ¬ isSpaceChar c)⟩

structure Elem where
  name : String
  attrs : List (String × String)
deriving DecidableEq, Repr

def parseElems (s : String) : List Elem :=
  (splitTags s).map (fun t => ⟨tagName t, parseAttrs t⟩)

/-- `doc.querySelector("parsererror")` is non-null: the parsed document
contains a parsererror element. -/
def hasParserError (s : String) : Bool :=
  (parseElems s).any (fun e => e.name = "parsererror")

/-- `doc.getElementById(id)`: the first element whose `id` attribute is the
given identifier. -/
def getElementById (elems : List Elem) (id : String) : Option Elem :=
  elems.find? (fun e => e.attrs.lookup "id" = some id)

/-- `doc.getElementById(id)?.getAttribute("fill") ?? null`. -/
def getFill (s : String) (id : String) : Option String :=
  (getElementById (parseElems s) id).bind (fun e => e.attrs.lookup "fill")

/-- JS truthiness of a `string | null`: `null` and the empty string are the
falsy cases the `!background || ...` guard rejects. -/
def strTruthy : Option String → Bool
  | none => false
  | some s => decide (s ≠ "")

/-- The final steps of `parseSVGTheme`: the nine looked-up fills pass the
truthiness guard and are assembled into a `ThemeColors` record (`getD ""` is
never the escape hatch when the guard holds). -/
def parseFills (background f_high f_med f_low f_inv b_high b_med b_low b_inv :
    Option String) : Option ThemeColors :=
  if strTruthy background && strTruthy f_high && strTruthy f_med &&
      strTruthy f_low && strTruthy f_inv && strTruthy b_high &&
      strTruthy b_med && strTruthy b_low && strTruthy b_inv then
    some ⟨background.getD "", f_high.getD "", f_med.getD "", f_low.getD "",
      f_inv.getD "", b_high.getD "", b_med.getD "", b_low.getD "",
      b_inv.getD ""⟩
  else none

/-- `parseSVGTheme` (page.tsx lines 77-88). -/
def parseSVGTheme (svg : String) : Option ThemeColors :=
  if hasParserError svg then none
  else parseFills (getFill svg "background") (getFill svg "f_high")
    (getFill svg "f_med") (getFill svg "f_low") (getFill svg "f_inv")
    (getFill svg "b_high") (getFill svg "b_med") (getFill svg "b_low")
    (getFill svg "b_inv")

/-! The `generateSVG` template literal (page.tsx lines 90-102), written as the
concatenation of its literal chunks with the interpolated colours. -/

def svgChunk0 : String :=
  "<svg width=\"96px\" height=\"64px\" xmlns=\"http://www.w3.org/2000/svg\" baseProfile=\"full\" version=\"1.1\">\n  <rect width=\x2796\x27 height=\x2764\x27 id=\x27background\x27 fill=\x27"

def svgChunk1 : String :=
  "\x27></rect>\n  <circle cx=\x2724\x27 cy=\x2724\x27 r=\x278\x27 id=\x27f_high\x27 fill=\x27"

def svgChunk2 : String :=
  "\x27></circle>\n  <circle cx=\x2740\x27 cy=\x2724\x27 r=\x278\x27 id=\x27f_med\x27  fill=\x27"

def svgChunk3 : String :=
  "\x27></circle>\n  <circle cx=\x2756\x27 cy=\x2724\x27 r=\x278\x27 id=\x27f_low\x27  fill=\x27"

def svgChunk4 : String :=
  "\x27></circle>\n  <circle cx=\x2772\x27 cy=\x2724\x27 r=\x278\x27 id=\x27f_inv\x27  fill=\x27"

def svgChunk5 : String :=
  "\x27></circle>\n  <circle cx=\x2724\x27 cy=\x2740\x27 r=\x278\x27 id=\x27b_high\x27 fill=\x27"

def svgChunk6 : String :=
  "\x27></circle>\n  <circle cx=\x2740\x27 cy=\x2740\x27 r=\x278\x27 id=\x27b_med\x27  fill=\x27"

def svgChunk7 : String :=
  "\x27></circle>\n  <circle cx=\x2756\x27 cy=\x2740\x27 r=\x278\x27 id=\x27b_low\x27  fill=\x27"

def svgChunk8 : String :=
  "\x27></circle>\n  <circle cx=\x2772\x27 cy=\x2740\x27 r=\x278\x27 id=\x27b_inv\x27  fill=\x27"

def svgChunk9 : String :=
  "\x27></circle>\n</svg>"

/-- `generateSVG` (page.tsx lines 90-102).  The `name` parameter is unused,
exactly as in the source. -/
def generateSVG (name : String) (colors : ThemeColors) : String :=
  svgChunk0 ++ colors.background ++ svgChunk1 ++ colors.f_high ++
  svgChunk2 ++ colors.f_med ++ svgChunk3 ++ colors.f_low ++
  svgChunk4 ++ colors.f_inv ++ svgChunk5 ++ colors.b_high ++
  svgChunk6 ++ colors.b_med ++ svgChunk7 ++ colors.b_low ++
  svgChunk8 ++ colors.b_inv ++ svgChunk9

/-! Decomposition of the generated document into scanner segments: each
`svgChunk{i+1}` starts with the closing quote and `>` of the previous element
and continues with the closing tag and the next element up to its open
`fill` quote (`svgUi`); the concrete prefixes of the element tag bodies are
named for reuse. -/

def svgOpenTag : String :=
  "svg width=\"96px\" height=\"64px\" xmlns=\"http://www.w3.org/2000/svg\" baseProfile=\"full\" version=\"1.1\""

def rectPre : String :=
  "rect width=\x2796\x27 height=\x2764\x27 id=\x27background\x27 fill=\x27"

def circPre1 : String :=
  "circle cx=\x2724\x27 cy=\x2724\x27 r=\x278\x27 id=\x27f_high\x27 fill=\x27"

def circPre2 : String :=
  "circle cx=\x2740\x27 cy=\x2724\x27 r=\x278\x27 id=\x27f_med\x27  fill=\x27"

def circPre3 : String :=
  "circle cx=\x2756\x27 cy=\x2724\x27 r=\x278\x27 id=\x27f_low\x27  fill=\x27"

def circPre4 : String :=
  "circle cx=\x2772\x27 cy=\x2724\x27 r=\x278\x27 id=\x27f_inv\x27  fill=\x27"

def circPre5 : String :=
  "circle cx=\x2724\x27 cy=\x2740\x27 r=\x278\x27 id=\x27b_high\x27 fill=\x27"

def circPre6 : String :=
  "circle cx=\x2740\x27 cy=\x2740\x27 r=\x278\x27 id=\x27b_med\x27  fill=\x27"

def circPre7 : String :=
  "circle cx=\x2756\x27 cy=\x2740\x27 r=\x278\x27 id=\x27b_low\x27  fill=\x27"

def circPre8 : String :=
  "circle cx=\x2772\x27 cy=\x2740\x27 r=\x278\x27 id=\x27b_inv\x27  fill=\x27"

def svgU1 : String :=
  "</rect>\n  <circle cx=\x2724\x27 cy=\x2724\x27 r=\x278\x27 id=\x27f_high\x27 fill=\x27"

def svgU2 : String :=
  "</circle>\n  <circle cx=\x2740\x27 cy=\x2724\x27 r=\x278\x27 id=\x27f_med\x27  fill=\x27"

def svgU3 : String :=
  "</circle>\n  <circle cx=\x2756\x27 cy=\x2724\x27 r=\x278\x27 id=\x27f_low\x27  fill=\x27"

def svgU4 : String :=
  "</circle>\n  <circle cx=\x2772\x27 cy=\x2724\x27 r=\x278\x27 id=\x27f_inv\x27  fill=\x27"

def svgU5 : String :=
  "</circle>\n  <circle cx=\x2724\x27 cy=\x2740\x27 r=\x278\x27 id=\x27b_high\x27 fill=\x27"

def svgU6 : String :=
  "</circle>\n  <circle cx=\x2740\x27 cy=\x2740\x27 r=\x278\x27 id=\x27b_med\x27  fill=\x27"

def svgU7 : String :=
  "</circle>\n  <circle cx=\x2756\x27 cy=\x2740\x27 r=\x278\x27 id=\x27b_low\x27  fill=\x27"

def svgU8 : String :=
  "</circle>\n  <circle cx=\x2772\x27 cy=\x2740\x27 r=\x278\x27 id=\x27b_inv\x27  fill=\x27"

def svgU9 : String :=
  "</circle>\n</svg>"

/-- A colour string that a successful import can produce and that can sit
inside a single-quoted XML attribute value: non-empty (empty fills fail the
import's truthiness guard) and free of quote, angle-bracket, and ampersand
characters, so the browser parses the generated document without error.
Every CSS colour literal qualifies. -/
def safeColor (s : String) : Prop :=
  s ≠ "" ∧ '\x27' ∉ s.data ∧ '"' ∉ s.data ∧ '<' ∉ s.data ∧ '>' ∉ s.data ∧
    '&' ∉ s.data

instance (s : String) : Decidable (safeColor s) := by
  unfold safeColor
  infer_instance

/-! ### Unique naming of imported themes (page.tsx lines 257-259)

The import loop tries `base`, `base-1`, `base-2`, ... against the names of
all existing themes.  Its correctness rests on the candidate names being
pairwise distinct, which in turn needs injectivity of the decimal printing
`Nat.repr` used by the template literal; that injectivity is proved here from
first principles (core ships only an implementation). -/

/-- Reference decimal digit list (most significant first) of a natural
number. -/
def myDigits (n : Nat) : List Char :=
  if n < 10 then [Nat.digitChar n]
  else myDigits (n / 10) ++ [Nat.digitChar (n % 10)]
decreasing_by exact Nat.div_lt_self (by omega) (by omega)

/-- Value of an ASCII digit character. -/
def digitVal (c : Char) : Nat := c.toNat - 48

/-- Value of a most-significant-first digit list. -/
def digitsVal (ds : List Char) : Nat :=
  ds.foldl (fun a c => 10 * a + digitVal c) 0

/-- The candidate names tried by the import loop, in order: the base name,
then `base-1`, `base-2`, ...  (`toString` on `Nat` is `Nat.repr`, as in the
template literal `` `${base}-${i++}` ``). -/
def candName (base : String) : Nat → String
  | 0 => base
  | i + 1 => base ++ "-" ++ toString (i + 1)

/-- The collision loop of `onDrop` (page.tsx lines 258-259), with explicit
fuel standing in for the JS `while`: at position `i` in the candidate
sequence, retry with `i+1` while the candidate is taken.  `importName` runs
it with fuel `names.length + 1`, which `importName_first_fresh` shows is
never exhausted. -/
def importNameGo (names : List String) (base : String) : Nat → Nat → String
  | 0, i => candName base i
  | fuel + 1, i =>
    if candName base i ∈ names then importNameGo names base fuel (i + 1)
    else candName base i

def importName (names : List String) (base : String) : String :=
  importNameGo names base (names.length + 1) 0

/-- JS `String.prototype.endsWith` (used as `file.name.endsWith(".svg")`):
the suffix test on the character sequences. -/
def jsEndsWith (s suffix : String) : Bool :=
  suffix.data.isSuffixOf s.data

/-- `onDrop` (page.tsx lines 250-264): files not named `*.svg` are ignored;
an unparseable file leaves the state unchanged (the handler is total — no
error is surfaced); otherwise the parsed colours are appended as a new
custom entry under the first fresh candidate name derived from the file
name (`replace(".svg", "")` removes the first occurrence), the custom list
is persisted, and the new theme becomes active. -/
def onDrop (st : AppState) (fileName text : String) : AppState :=
  if jsEndsWith fileName ".svg" then
    match parseSVGTheme text with
    | none => st
    | some colors =>
      { settings := { st.settings with
          themeName := importName ((allThemes st).map ThemeEntry.name)
            (replaceFirst fileName ".svg" "") },
        customThemes := st.customThemes ++
          [{ name := importName ((allThemes st).map ThemeEntry.name)
               (replaceFirst fileName ".svg" ""),
             display := importName ((allThemes st).map ThemeEntry.name)
               (replaceFirst fileName ".svg" ""),
             category := "Custom", colors := colors, isCustom := true }] }
  else st

/-- The nine element identifiers `parseSVGTheme` requires. -/
def requiredIds : List String :=
  ["background", "f_high", "f_med", "f_low", "f_inv", "b_high", "b_med",
   "b_low", "b_inv"]

/-! ### Settings persistence (page.tsx lines 129-139 and 186-189)

`saveSettings` writes `JSON.stringify(settings)` under the "hpSettings"
localStorage key; `initSettings` reads the key, merges the parsed object over
the defaults with an object spread, and falls back to the defaults when the
key is absent or `JSON.parse` throws.  JSON values are modelled by an
explicit tree; the stored cell is `Option (Option Json)`: `none` is a missing
key, `some none` a stored string rejected by `JSON.parse` (the `catch`
branch; the empty string, falsy at `if (s)`, behaves identically), and
`some (some j)` a stored string parsing to `j`. -/

inductive Json where
  | str (s : String)
  | num (n : Int)
  | jbool (b : Bool)
  | null
  | arr (xs : List Json)
  | obj (fields : List (String × Json))

/-- Field lookup in a JSON object (first binding wins, as in a parsed JSON
object, whose keys are unique); `none` on non-objects. -/
def Json.getField (j : Json) (k : String) : Option Json :=
  match j with
  | .obj fields => fields.lookup k
  | _ => none

def DEFAULT_SETTINGS : Settings :=
  { tempUnit := .F, timeFormat := .h24, searchEngine := .google,
    themeName := "dark" }

/-- `JSON.stringify` of a `Settings` record: the object with the four fields
in declaration order, enum fields as their literal strings. -/
def Settings.toJson (s : Settings) : Json :=
  .obj [
    ("tempUnit", .str (match s.tempUnit with | .C => "C" | .F => "F")),
    ("timeFormat", .str (match s.timeFormat with | .h24 => "24h" | .h12 => "12h")),
    ("searchEngine", .str (match s.searchEngine with
      | .google => "google" | .ddg => "ddg" | .bing => "bing")),
    ("themeName", .str s.themeName)]

def decodeTempUnit : Json → Option TempUnit
  | .str "C" => some .C
  | .str "F" => some .F
  | _ => none

def decodeTimeFormat : Json → Option TimeFormat
  | .str "24h" => some .h24
  | .str "12h" => some .h12
  | _ => none

def decodeEngine : Json → Option Engine
  | .str "google" => some .google
  | .str "ddg" => some .ddg
  | .str "bing" => some .bing
  | _ => none

def decodeThemeName : Json → Option String
  | .str s => some s
  | _ => none

/-- Model of the spread `{...DEFAULT_SETTINGS, ...parsed}`: each field present
in the parsed object overrides the default.  (The JS spread is untyped; a
present field whose value does not inhabit the field's type produces a record
outside the `Settings` type and is not representable in the typed model, so
such fields are treated as absent.  Spreading a non-object contributes no
named fields, so non-objects leave every default in place, which the `_ =>
none` branches of `Json.getField` and the decoders reproduce.) -/
def mergeSettings (j : Json) : Settings :=
  { tempUnit := ((j.getField "tempUnit").bind decodeTempUnit).getD
      DEFAULT_SETTINGS.tempUnit,
    timeFormat := ((j.getField "timeFormat").bind decodeTimeFormat).getD
      DEFAULT_SETTINGS.timeFormat,
    searchEngine := ((j.getField "searchEngine").bind decodeEngine).getD
      DEFAULT_SETTINGS.searchEngine,
    themeName := ((j.getField "themeName").bind decodeThemeName).getD
      DEFAULT_SETTINGS.themeName }

/-- `initSettings` (page.tsx lines 133-139) over the modelled storage cell. -/
def initSettings : Option (Option Json) → Settings
  | some (some j) => mergeSettings j
  | some none => DEFAULT_SETTINGS
  | none => DEFAULT_SETTINGS

/-- `saveSettings` (page.tsx lines 186-189): stores the stringified record
(the in-memory `setSettings` update stores the same value). -/
def saveSettings (s : Settings) : Option (Option Json) :=
  some (some s.toJson)

/-! ### Search submission (page.tsx lines 149-153 and 278-283) -/

def SEARCH_URLS : Engine → String
  | .google => "https://www.google.com/search?q="
  | .ddg => "https://duckduckgo.com/?q="
  | .bing => "https://www.bing.com/search?q="

/-- Whitespace for `String.prototype.trim`: ECMAScript WhiteSpace and
LineTerminator code points (tab, LF, VT, FF, CR, space, NBSP, Ogham space,
the U+2000-200A spaces, LS, PS, NNBSP, MMSP, ideographic space, ZWNBSP). -/
def isJSWhitespace (c : Char) : Bool :=
  c.toNat = 9 ∨ c.toNat = 10 ∨ c.toNat = 11 ∨ c.toNat = 12 ∨ c.toNat = 13 ∨
  c.toNat = 32 ∨ c.toNat = 160 ∨ c.toNat = 0x1680 ∨
  (0x2000 ≤ c.toNat ∧ c.toNat ≤ 0x200A) ∨ c.toNat = 0x2028 ∨
  c.toNat = 0x2029 ∨ c.toNat = 0x202F ∨ c.toNat = 0x205F ∨
  c.toNat = 0x3000 ∨ c.toNat = 0xFEFF

/-- `query.trim()`: drop leading and trailing JS whitespace. -/
def jsTrim (s : String) : String :=
  ⟨((s.data.dropWhile isJSWhitespace).reverse.dropWhile isJSWhitespace).reverse⟩

/-- Uppercase hex digit for a value below 16 (percent-escapes are upper-case). -/
def hexDigitUpper (n : Nat) : Char :=
  "0123456789ABCDEF".data.getD n '0'

/-- UTF-8 bytes of a character, as `encodeURIComponent` encodes non-unreserved
characters.  (Lean `Char`s are scalar values, so the lone-surrogate error case
of `encodeURIComponent` cannot arise.) -/
def utf8Bytes (c : Char) : List Nat :=
  let n := c.toNat
  if n < 0x80 then [n]
  else if n < 0x800 then [0xC0 + n / 64, 0x80 + n % 64]
  else if n < 0x10000 then
    [0xE0 + n / 4096, 0x80 + n / 64 % 64, 0x80 + n % 64]
  else
    [0xF0 + n / 262144, 0x80 + n / 4096 % 64, 0x80 + n / 64 % 64,
     0x80 + n % 64]

/-- The characters `encodeURIComponent` leaves unescaped: ASCII letters,
digits, and `- _ . ! ~ * ' ( )`. -/
def isURIUnreserved (c : Char) : Bool :=
  (65 ≤ c.toNat ∧ c.toNat ≤ 90) ∨ (97 ≤ c.toNat ∧ c.toNat ≤ 122) ∨
  (48 ≤ c.toNat ∧ c.toNat ≤ 57) ∨
  c = '-' ∨ c = '_' ∨ c = '.' ∨ c = '!' ∨ c = '~' ∨ c = '*' ∨
  c = '\x27' ∨ c = '(' ∨ c = ')'

def pctEncodeChar (c : Char) : List Char :=
  if isURIUnreserved c then [c]
  else (utf8Bytes c).flatMap
    (fun b => ['%', hexDigitUpper (b / 16), hexDigitUpper (b % 16)])

/-- `encodeURIComponent`. -/
def encodeURIComponent (s : String) : String :=
  ⟨s.data.flatMap pctEncodeChar⟩

/-- `handleSearch` (page.tsx lines 278-283): the navigation target, or `none`
when the trimmed query is empty (the JS guard `if (!q) return` — the empty
string is the only falsy trimmed string).  The function is total: no error is
raised on any input. -/
def handleSearch (settings : Settings) (query : String) : Option String :=
  let q := jsTrim query
  if q = "" then none
  else some (SEARCH_URLS settings.searchEngine ++ encodeURIComponent q)

/-! ## Theorems -/

/-! Generic facts about the two scanners: the accumulated output lists are
append-invariant (the step functions never inspect them), and inside a quoted
value every character other than the closing quote is accumulated verbatim. -/

theorem splitStep_tags (cur : Option (List Char)) (q : Option Char)
    (T : List (List Char)) (c : Char) :
    splitStep ⟨cur, q, T⟩ c
      = ⟨(splitStep ⟨cur, q, []⟩ c).cur, (splitStep ⟨cur, q, []⟩ c).quote,
         (splitStep ⟨cur, q, []⟩ c).tags ++ T⟩ := by
  cases cur <;> cases q <;> simp [splitStep] <;> split_ifs <;> simp

theorem foldl_splitStep_tags (cs : List Char) :
    ∀ (cur : Option (List Char)) (q : Option Char) (T : List (List Char)),
    cs.foldl splitStep ⟨cur, q, T⟩
      = ⟨(cs.foldl splitStep ⟨cur, q, []⟩).cur,
         (cs.foldl splitStep ⟨cur, q, []⟩).quote,
         (cs.foldl splitStep ⟨cur, q, []⟩).tags ++ T⟩ := by
  induction cs with
  | nil => intro cur q T; simp
  | cons c cs ih =>
    intro cur q T
    simp only [List.foldl_cons]
    rw [splitStep_tags cur q T c]
    rcases hsp : splitStep ⟨cur, q, []⟩ c with ⟨rcur, rq, rtags⟩
    rw [ih rcur rq (rtags ++ T), ih rcur rq rtags]
    simp

theorem foldl_splitStep_inQuote (cs : List Char) :
    ∀ (acc : List Char) (q : Char) (T : List (List Char)), q ∉ cs →
    cs.foldl splitStep ⟨some acc, some q, T⟩
      = ⟨some (cs.reverse ++ acc), some q, T⟩ := by
  induction cs with
  | nil => intro acc q T _; simp
  | cons c cs ih =>
    intro acc q T h
    have hc : ¬ c = q := fun hcq => h (hcq ▸ List.mem_cons_self c cs)
    have hrest : q ∉ cs := fun hmem => h (List.mem_cons_of_mem _ hmem)
    simp only [List.foldl_cons]
    rw [show splitStep ⟨some acc, some q, T⟩ c = ⟨some (c :: acc), some q, T⟩
      from by simp [splitStep, hc]]
    rw [ih (c :: acc) q T hrest]
    simp

/-- Consuming an interpolated attribute value followed by the closing quote
and the tag-closing `>`: the completed tag body is the prefix, the value, and
the closing quote. -/
theorem fold_color_close (color : String) (pre : List Char)
    (T : List (List Char)) (rest : List Char) (hq : '\x27' ∉ color.data) :
    (color.data ++ '\x27' :: '>' :: rest).foldl splitStep
        ⟨some pre, some '\x27', T⟩
      = rest.foldl splitStep
          ⟨none, none, (pre.reverse ++ color.data ++ ['\x27']) :: T⟩ := by
  rw [List.foldl_append]
  rw [foldl_splitStep_inQuote color.data pre '\x27' T hq]
  simp only [List.foldl_cons]
  rw [show splitStep ⟨some (color.data.reverse ++ pre), some '\x27', T⟩ '\x27'
      = ⟨some ('\x27' :: (color.data.reverse ++ pre)), none, T⟩
    from by simp [splitStep]]
  rw [show splitStep ⟨some ('\x27' :: (color.data.reverse ++ pre)), none, T⟩ '>'
      = ⟨none, none, ('\x27' :: (color.data.reverse ++ pre)).reverse :: T⟩
    from by simp [splitStep]]
  have : ('\x27' :: (color.data.reverse ++ pre)).reverse
      = pre.reverse ++ color.data ++ ['\x27'] := by simp
  rw [this]

theorem attrStep_attrs (ph : AttrPhase) (A : List (String × String))
    (c : Char) :
    attrStep ⟨ph, A⟩ c
      = ⟨(attrStep ⟨ph, []⟩ c).phase, (attrStep ⟨ph, []⟩ c).attrs ++ A⟩ := by
  cases ph <;> simp [attrStep] <;> split_ifs <;> simp

theorem foldl_attrStep_attrs (cs : List Char) :
    ∀ (ph : AttrPhase) (A : List (String × String)),
    cs.foldl attrStep ⟨ph, A⟩
      = ⟨(cs.foldl attrStep ⟨ph, []⟩).phase,
         (cs.foldl attrStep ⟨ph, []⟩).attrs ++ A⟩ := by
  induction cs with
  | nil => intro ph A; simp
  | cons c cs ih =>
    intro ph A
    simp only [List.foldl_cons]
    rw [attrStep_attrs ph A c]
    rcases hsp : attrStep ⟨ph, []⟩ c with ⟨rph, rattrs⟩
    rw [ih rph (rattrs ++ A), ih rph rattrs]
    simp

theorem foldl_attrStep_inValue (cs : List Char) :
    ∀ (nm : List Char) (q : Char) (acc : List Char)
      (A : List (String × String)), q ∉ cs →
    cs.foldl attrStep ⟨.value nm q acc, A⟩
      = ⟨.value nm q (cs.reverse ++ acc), A⟩ := by
  induction cs with
  | nil => intro nm q acc A _; simp
  | cons c cs ih =>
    intro nm q acc A h
    have hc : ¬ c = q := fun hcq => h (hcq ▸ List.mem_cons_self c cs)
    have hrest : q ∉ cs := fun hmem => h (List.mem_cons_of_mem _ hmem)
    simp only [List.foldl_cons]
    rw [show attrStep ⟨.value nm q acc, A⟩ c = ⟨.value nm q (c :: acc), A⟩
      from by simp [attrStep, hc]]
    rw [ih nm q (c :: acc) A hrest]
    simp

/-- Reading the attributes of a tag body that ends in an interpolated,
quote-free value: the scan of the concrete prefix (a `rfl` fact at each use
site) determines the earlier attributes and leaves the scanner inside the
final value, which then closes on the trailing quote. -/
theorem parseAttrs_fill (pre : List Char) (color : String)
    (nmrev : List Char) (A : List (String × String))
    (hpre : pre.foldl attrStep ⟨.between, []⟩ = ⟨.value nmrev '\x27' [], A⟩)
    (hq : '\x27' ∉ color.data) :
    parseAttrs (pre ++ color.data ++ ['\x27'])
      = A.reverse ++ [((⟨nmrev.reverse⟩ : String), color)] := by
  unfold parseAttrs
  rw [List.append_assoc, List.foldl_append, hpre, List.foldl_append]
  rw [foldl_attrStep_inValue color.data nmrev '\x27' [] A hq]
  simp only [List.foldl_cons, List.foldl_nil]
  rw [show attrStep ⟨.value nmrev '\x27' (color.data.reverse ++ []), A⟩ '\x27'
      = ⟨.between, ((⟨nmrev.reverse⟩ : String),
          (⟨(color.data.reverse ++ []).reverse⟩ : String)) :: A⟩
    from by simp [attrStep]]
  simp

theorem chunkSplit1 : svgChunk1.data = '\x27' :: '>' :: svgU1.data := rfl

theorem chunkSplit2 : svgChunk2.data = '\x27' :: '>' :: svgU2.data := rfl

theorem chunkSplit3 : svgChunk3.data = '\x27' :: '>' :: svgU3.data := rfl

theorem chunkSplit4 : svgChunk4.data = '\x27' :: '>' :: svgU4.data := rfl

theorem chunkSplit5 : svgChunk5.data = '\x27' :: '>' :: svgU5.data := rfl

theorem chunkSplit6 : svgChunk6.data = '\x27' :: '>' :: svgU6.data := rfl

theorem chunkSplit7 : svgChunk7.data = '\x27' :: '>' :: svgU7.data := rfl

theorem chunkSplit8 : svgChunk8.data = '\x27' :: '>' :: svgU8.data := rfl

theorem chunkSplit9 : svgChunk9.data = '\x27' :: '>' :: svgU9.data := rfl

/-- A segment from outside any tag to the open `fill` quote of the next
element: consuming it appends the completed tags and leaves the scanner
inside the quote with the element prefix accumulated. -/
theorem stageFold (U : String) (preNext : List Char)
    (tagsNew : List (List Char))
    (hU : U.data.foldl splitStep ⟨none, none, []⟩
      = ⟨some preNext, some '\x27', tagsNew⟩)
    (T : List (List Char)) (rest : List Char) :
    (U.data ++ rest).foldl splitStep ⟨none, none, T⟩
      = rest.foldl splitStep ⟨some preNext, some '\x27', tagsNew ++ T⟩ := by
  rw [List.foldl_append, foldl_splitStep_tags U.data none none T, hU]

theorem seg0 : svgChunk0.data.foldl splitStep ⟨none, none, []⟩
    = ⟨some rectPre.data.reverse, some '\x27', [svgOpenTag.data]⟩ := rfl

theorem segU1 : svgU1.data.foldl splitStep ⟨none, none, []⟩
    = ⟨some circPre1.data.reverse, some '\x27', ["/rect".data]⟩ := rfl

theorem segU2 : svgU2.data.foldl splitStep ⟨none, none, []⟩
    = ⟨some circPre2.data.reverse, some '\x27', ["/circle".data]⟩ := rfl

theorem segU3 : svgU3.data.foldl splitStep ⟨none, none, []⟩
    = ⟨some circPre3.data.reverse, some '\x27', ["/circle".data]⟩ := rfl

theorem segU4 : svgU4.data.foldl splitStep ⟨none, none, []⟩
    = ⟨some circPre4.data.reverse, some '\x27', ["/circle".data]⟩ := rfl

theorem segU5 : svgU5.data.foldl splitStep ⟨none, none, []⟩
    = ⟨some circPre5.data.reverse, some '\x27', ["/circle".data]⟩ := rfl

theorem segU6 : svgU6.data.foldl splitStep ⟨none, none, []⟩
    = ⟨some circPre6.data.reverse, some '\x27', ["/circle".data]⟩ := rfl

theorem segU7 : svgU7.data.foldl splitStep ⟨none, none, []⟩
    = ⟨some circPre7.data.reverse, some '\x27', ["/circle".data]⟩ := rfl

theorem segU8 : svgU8.data.foldl splitStep ⟨none, none, []⟩
    = ⟨some circPre8.data.reverse, some '\x27', ["/circle".data]⟩ := rfl

theorem segU9 : svgU9.data.foldl splitStep ⟨none, none, []⟩
    = ⟨none, none, ["/svg".data, "/circle".data]⟩ := rfl

/-- The tag bodies of a generated SVG document, for colours free of single
quotes: the svg open tag, then each of the nine elements (its concrete
prefix, the interpolated colour, and the closing quote) followed by its
closing tag. -/
theorem splitTags_generateSVG (name : String) (c : ThemeColors)
    (hb : '\x27' ∉ c.background.data) (hfh : '\x27' ∉ c.f_high.data)
    (hfm : '\x27' ∉ c.f_med.data) (hfl : '\x27' ∉ c.f_low.data)
    (hfi : '\x27' ∉ c.f_inv.data) (hbh : '\x27' ∉ c.b_high.data)
    (hbm : '\x27' ∉ c.b_med.data) (hbl : '\x27' ∉ c.b_low.data)
    (hbi : '\x27' ∉ c.b_inv.data) :
    splitTags (generateSVG name c) =
      [svgOpenTag.data,
       rectPre.data ++ c.background.data ++ ['\x27'], "/rect".data,
       circPre1.data ++ c.f_high.data ++ ['\x27'], "/circle".data,
       circPre2.data ++ c.f_med.data ++ ['\x27'], "/circle".data,
       circPre3.data ++ c.f_low.data ++ ['\x27'], "/circle".data,
       circPre4.data ++ c.f_inv.data ++ ['\x27'], "/circle".data,
       circPre5.data ++ c.b_high.data ++ ['\x27'], "/circle".data,
       circPre6.data ++ c.b_med.data ++ ['\x27'], "/circle".data,
       circPre7.data ++ c.b_low.data ++ ['\x27'], "/circle".data,
       circPre8.data ++ c.b_inv.data ++ ['\x27'], "/circle".data,
       "/svg".data] := by
  unfold splitTags generateSVG
  simp only [String.data_append, chunkSplit1, chunkSplit2, chunkSplit3,
    chunkSplit4, chunkSplit5, chunkSplit6, chunkSplit7, chunkSplit8,
    chunkSplit9, List.append_assoc, List.cons_append]
  rw [stageFold svgChunk0 rectPre.data.reverse [svgOpenTag.data] seg0]
  rw [fold_color_close c.background rectPre.data.reverse _ _ hb]
  rw [stageFold svgU1 circPre1.data.reverse ["/rect".data] segU1]
  rw [fold_color_close c.f_high circPre1.data.reverse _ _ hfh]
  rw [stageFold svgU2 circPre2.data.reverse ["/circle".data] segU2]
  rw [fold_color_close c.f_med circPre2.data.reverse _ _ hfm]
  rw [stageFold svgU3 circPre3.data.reverse ["/circle".data] segU3]
  rw [fold_color_close c.f_low circPre3.data.reverse _ _ hfl]
  rw [stageFold svgU4 circPre4.data.reverse ["/circle".data] segU4]
  rw [fold_color_close c.f_inv circPre4.data.reverse _ _ hfi]
  rw [stageFold svgU5 circPre5.data.reverse ["/circle".data] segU5]
  rw [fold_color_close c.b_high circPre5.data.reverse _ _ hbh]
  rw [stageFold svgU6 circPre6.data.reverse ["/circle".data] segU6]
  rw [fold_color_close c.b_med circPre6.data.reverse _ _ hbm]
  rw [stageFold svgU7 circPre7.data.reverse ["/circle".data] segU7]
  rw [fold_color_close c.b_low circPre7.data.reverse _ _ hbl]
  rw [stageFold svgU8 circPre8.data.reverse ["/circle".data] segU8]
  rw [fold_color_close c.b_inv circPre8.data.reverse _ _ hbi]
  rw [foldl_splitStep_tags svgU9.data none none, segU9]
  simp

/-! Attribute scans of the concrete element prefixes: each leaves the reader
inside the value of `fill` with the earlier attributes accumulated (most
recent first). -/

theorem attrRect : rectPre.data.foldl attrStep ⟨.between, []⟩
    = ⟨.value "fill".data.reverse '\x27' [],
       [("id", "background"), ("height", "64"), ("width", "96")]⟩ := rfl

theorem attrCirc1 : circPre1.data.foldl attrStep ⟨.between, []⟩
    = ⟨.value "fill".data.reverse '\x27' [],
       [("id", "f_high"), ("r", "8"), ("cy", "24"), ("cx", "24")]⟩ := rfl

theorem attrCirc2 : circPre2.data.foldl attrStep ⟨.between, []⟩
    = ⟨.value "fill".data.reverse '\x27' [],
       [("id", "f_med"), ("r", "8"), ("cy", "24"), ("cx", "40")]⟩ := rfl

theorem attrCirc3 : circPre3.data.foldl attrStep ⟨.between, []⟩
    = ⟨.value "fill".data.reverse '\x27' [],
       [("id", "f_low"), ("r", "8"), ("cy", "24"), ("cx", "56")]⟩ := rfl

theorem attrCirc4 : circPre4.data.foldl attrStep ⟨.between, []⟩
    = ⟨.value "fill".data.reverse '\x27' [],
       [("id", "f_inv"), ("r", "8"), ("cy", "24"), ("cx", "72")]⟩ := rfl

theorem attrCirc5 : circPre5.data.foldl attrStep ⟨.between, []⟩
    = ⟨.value "fill".data.reverse '\x27' [],
       [("id", "b_high"), ("r", "8"), ("cy", "40"), ("cx", "24")]⟩ := rfl

theorem attrCirc6 : circPre6.data.foldl attrStep ⟨.between, []⟩
    = ⟨.value "fill".data.reverse '\x27' [],
       [("id", "b_med"), ("r", "8"), ("cy", "40"), ("cx", "40")]⟩ := rfl

theorem attrCirc7 : circPre7.data.foldl attrStep ⟨.between, []⟩
    = ⟨.value "fill".data.reverse '\x27' [],
       [("id", "b_low"), ("r", "8"), ("cy", "40"), ("cx", "56")]⟩ := rfl

theorem attrCirc8 : circPre8.data.foldl attrStep ⟨.between, []⟩
    = ⟨.value "fill".data.reverse '\x27' [],
       [("id", "b_inv"), ("r", "8"), ("cy", "40"), ("cx", "72")]⟩ := rfl

/-- The parsed element list of a generated document: the svg element, the
nine colour-carrying elements with their `id` and `fill` attributes, and the
closing tags (attribute-less pseudo-elements whose names begin with `/`). -/
theorem parseElems_generateSVG (name : String) (c : ThemeColors)
    (hb : '\x27' ∉ c.background.data) (hfh : '\x27' ∉ c.f_high.data)
    (hfm : '\x27' ∉ c.f_med.data) (hfl : '\x27' ∉ c.f_low.data)
    (hfi : '\x27' ∉ c.f_inv.data) (hbh : '\x27' ∉ c.b_high.data)
    (hbm : '\x27' ∉ c.b_med.data) (hbl : '\x27' ∉ c.b_low.data)
    (hbi : '\x27' ∉ c.b_inv.data) :
    parseElems (generateSVG name c) =
      [⟨"svg", [("width", "96px"), ("height", "64px"),
         ("xmlns", "http://www.w3.org/2000/svg"), ("baseProfile", "full"),
         ("version", "1.1")]⟩,
       ⟨"rect", [("width", "96"), ("height", "64"), ("id", "background"),
         ("fill", c.background)]⟩,
       ⟨"/rect", []⟩,
       ⟨"circle", [("cx", "24"), ("cy", "24"), ("r", "8"), ("id", "f_high"),
         ("fill", c.f_high)]⟩,
       ⟨"/circle", []⟩,
       ⟨"circle", [("cx", "40"), ("cy", "24"), ("r", "8"), ("id", "f_med"),
         ("fill", c.f_med)]⟩,
       ⟨"/circle", []⟩,
       ⟨"circle", [("cx", "56"), ("cy", "24"), ("r", "8"), ("id", "f_low"),
         ("fill", c.f_low)]⟩,
       ⟨"/circle", []⟩,
       ⟨"circle", [("cx", "72"), ("cy", "24"), ("r", "8"), ("id", "f_inv"),
         ("fill", c.f_inv)]⟩,
       ⟨"/circle", []⟩,
       ⟨"circle", [("cx", "24"), ("cy", "40"), ("r", "8"), ("id", "b_high"),
         ("fill", c.b_high)]⟩,
       ⟨"/circle", []⟩,
       ⟨"circle", [("cx", "40"), ("cy", "40"), ("r", "8"), ("id", "b_med"),
         ("fill", c.b_med)]⟩,
       ⟨"/circle", []⟩,
       ⟨"circle", [("cx", "56"), ("cy", "40"), ("r", "8"), ("id", "b_low"),
         ("fill", c.b_low)]⟩,
       ⟨"/circle", []⟩,
       ⟨"circle", [("cx", "72"), ("cy", "40"), ("r", "8"), ("id", "b_inv"),
         ("fill", c.b_inv)]⟩,
       ⟨"/circle", []⟩,
       ⟨"/svg", []⟩] := by
  unfold parseElems
  rw [splitTags_generateSVG name c hb hfh hfm hfl hfi hbh hbm hbl hbi]
  simp only [List.map_cons, List.map_nil]
  rw [parseAttrs_fill rectPre.data c.background "fill".data.reverse _ attrRect hb]
  rw [parseAttrs_fill circPre1.data c.f_high "fill".data.reverse _ attrCirc1 hfh]
  rw [parseAttrs_fill circPre2.data c.f_med "fill".data.reverse _ attrCirc2 hfm]
  rw [parseAttrs_fill circPre3.data c.f_low "fill".data.reverse _ attrCirc3 hfl]
  rw [parseAttrs_fill circPre4.data c.f_inv "fill".data.reverse _ attrCirc4 hfi]
  rw [parseAttrs_fill circPre5.data c.b_high "fill".data.reverse _ attrCirc5 hbh]
  rw [parseAttrs_fill circPre6.data c.b_med "fill".data.reverse _ attrCirc6 hbm]
  rw [parseAttrs_fill circPre7.data c.b_low "fill".data.reverse _ attrCirc7 hbl]
  rw [parseAttrs_fill circPre8.data c.b_inv "fill".data.reverse _ attrCirc8 hbi]
  rfl

/-- Claim C2: for every `ThemeColors` record whose nine colour values are
valid attribute values (as any record produced by a successful import is),
re-importing the document exported for it succeeds and returns the identical
record: import after export is the identity on colour values, so
import→export→import is lossless. -/
theorem import_export_roundtrip (name : String) (c : ThemeColors)
    (hb : safeColor c.background) (hfh : safeColor c.f_high)
    (hfm : safeColor c.f_med) (hfl : safeColor c.f_low)
    (hfi : safeColor c.f_inv) (hbh : safeColor c.b_high)
    (hbm : safeColor c.b_med) (hbl : safeColor c.b_low)
    (hbi : safeColor c.b_inv) :
    parseSVGTheme (generateSVG name c) = some c := by
  have helems := parseElems_generateSVG name c hb.2.1 hfh.2.1 hfm.2.1
    hfl.2.1 hfi.2.1 hbh.2.1 hbm.2.1 hbl.2.1 hbi.2.1
  have hperr : hasParserError (generateSVG name c) = false := by
    unfold hasParserError
    rw [helems]
    rfl
  have hgb : getFill (generateSVG name c) "background" = some c.background := by
    unfold getFill getElementById
    rw [helems]
    rfl
  have hg1 : getFill (generateSVG name c) "f_high" = some c.f_high := by
    unfold getFill getElementById
    rw [helems]
    rfl
  have hg2 : getFill (generateSVG name c) "f_med" = some c.f_med := by
    unfold getFill getElementById
    rw [helems]
    rfl
  have hg3 : getFill (generateSVG name c) "f_low" = some c.f_low := by
    unfold getFill getElementById
    rw [helems]
    rfl
  have hg4 : getFill (generateSVG name c) "f_inv" = some c.f_inv := by
    unfold getFill getElementById
    rw [helems]
    rfl
  have hg5 : getFill (generateSVG name c) "b_high" = some c.b_high := by
    unfold getFill getElementById
    rw [helems]
    rfl
  have hg6 : getFill (generateSVG name c) "b_med" = some c.b_med := by
    unfold getFill getElementById
    rw [helems]
    rfl
  have hg7 : getFill (generateSVG name c) "b_low" = some c.b_low := by
    unfold getFill getElementById
    rw [helems]
    rfl
  have hg8 : getFill (generateSVG name c) "b_inv" = some c.b_inv := by
    unfold getFill getElementById
    rw [helems]
    rfl
  unfold parseSVGTheme
  rw [hperr, hgb, hg1, hg2, hg3, hg4, hg5, hg6, hg7, hg8]
  rw [if_neg Bool.false_ne_true]
  unfold parseFills
  have ht : ∀ s : String, s ≠ "" → strTruthy (some s) = true := by
    intro s hs
    unfold strTruthy
    exact decide_eq_true hs
  rw [if_pos (by
    rw [ht _ hb.1, ht _ hfh.1, ht _ hfm.1, ht _ hfl.1, ht _ hfi.1,
      ht _ hbh.1, ht _ hbm.1, ht _ hbl.1, ht _ hbi.1]
    rfl)]
  rfl

/-- Claim C2 witness: the round-trip theorem applied to the dark built-in
palette (all nine of its colour literals satisfy `safeColor`), evaluated
concretely. -/
theorem import_export_roundtrip_witness :
    parseSVGTheme (generateSVG "dark" firstBuiltin.colors)
      = some firstBuiltin.colors :=
  import_export_roundtrip "dark" firstBuiltin.colors (by decide) (by decide)
    (by decide) (by decide) (by decide) (by decide) (by decide) (by decide)
    (by decide)

theorem toDigitsCore_eq_myDigits (fuel : Nat) :
    ∀ (n : Nat) (ds : List Char), n < 10 ^ (fuel + 1) →
    Nat.toDigitsCore 10 (fuel + 1) n ds = myDigits n ++ ds := by
  induction fuel with
  | zero =>
    intro n ds h
    have h10 : n < 10 := by simpa using h
    have hdiv : n / 10 = 0 := Nat.div_eq_of_lt h10
    have hmod : n % 10 = n := Nat.mod_eq_of_lt h10
    unfold Nat.toDigitsCore
    rw [if_pos hdiv]
    unfold myDigits
    rw [if_pos h10, hmod]
    rfl
  | succ fuel ih =>
    intro n ds h
    by_cases h10 : n < 10
    · have hdiv : n / 10 = 0 := Nat.div_eq_of_lt h10
      have hmod : n % 10 = n := Nat.mod_eq_of_lt h10
      unfold Nat.toDigitsCore
      rw [if_pos hdiv]
      unfold myDigits
      rw [if_pos h10, hmod]
      rfl
    · have hdiv : ¬ n / 10 = 0 := by
        intro h0
        exact h10 (by omega)
      have hlt : n / 10 < 10 ^ (fuel + 1) := by
        rw [Nat.div_lt_iff_lt_mul (by omega)]
        calc n < 10 ^ (fuel + 1 + 1) := h
        _ = 10 ^ (fuel + 1) * 10 := by ring
      unfold Nat.toDigitsCore
      rw [if_neg hdiv]
      rw [ih (n / 10) (Nat.digitChar (n % 10) :: ds) hlt]
      conv_rhs => rw [myDigits, if_neg h10]
      simp

theorem repr_eq_myDigits (n : Nat) : Nat.repr n = (myDigits n).asString := by
  show (Nat.toDigits 10 n).asString = (myDigits n).asString
  unfold Nat.toDigits
  rw [toDigitsCore_eq_myDigits n n []
    (lt_of_lt_of_le (Nat.lt_pow_self (by omega) n)
      (Nat.pow_le_pow_right (by omega) (by omega)))]
  rw [List.append_nil]

theorem digitVal_digitChar (d : Nat) (h : d < 10) :
    digitVal (Nat.digitChar d) = d := by
  interval_cases d <;> rfl

theorem digitsVal_append_single (xs : List Char) (c : Char) :
    digitsVal (xs ++ [c]) = 10 * digitsVal xs + digitVal c := by
  unfold digitsVal
  rw [List.foldl_append]
  rfl

theorem digitsVal_myDigits (n : Nat) : digitsVal (myDigits n) = n := by
  induction n using Nat.strong_induction_on with
  | _ n ih =>
    by_cases h10 : n < 10
    · rw [myDigits, if_pos h10]
      show 10 * 0 + digitVal (Nat.digitChar n) = n
      rw [digitVal_digitChar n h10]
      omega
    · rw [myDigits, if_neg h10]
      rw [digitsVal_append_single]
      rw [ih (n / 10) (Nat.div_lt_self (by omega) (by omega))]
      rw [digitVal_digitChar (n % 10) (Nat.mod_lt n (by omega))]
      omega

theorem repr_injective : Function.Injective Nat.repr := by
  intro m n h
  rw [repr_eq_myDigits, repr_eq_myDigits] at h
  have hdata : myDigits m = myDigits n := congrArg String.data h
  calc m = digitsVal (myDigits m) := (digitsVal_myDigits m).symm
  _ = digitsVal (myDigits n) := by rw [hdata]
  _ = n := digitsVal_myDigits n

theorem candName_injective (base : String) :
    Function.Injective (candName base) := by
  have hlen : ∀ j : Nat, (candName base (j + 1)).length
      = base.length + 1 + (toString (j + 1)).length := by
    intro j
    show (base ++ "-" ++ toString (j + 1)).length = _
    rw [String.length_append, String.length_append]
    rfl
  intro i j h
  match i, j with
  | 0, 0 => rfl
  | 0, j + 1 =>
    exfalso
    have hL := congrArg String.length h
    rw [hlen j, show candName base 0 = base from rfl] at hL
    omega
  | i + 1, 0 =>
    exfalso
    have hL := congrArg String.length h
    rw [hlen i, show candName base 0 = base from rfl] at hL
    omega
  | i + 1, j + 1 =>
    have hdata : (base ++ "-" ++ toString (i + 1)).data
        = (base ++ "-" ++ toString (j + 1)).data := congrArg String.data h
    simp only [String.data_append, List.append_assoc] at hdata
    have hrepr : (toString (i + 1) : String).data
        = (toString (j + 1) : String).data :=
      List.append_cancel_left (List.append_cancel_left hdata)
    have hR : Nat.repr (i + 1) = Nat.repr (j + 1) := congrArg String.mk hrepr
    exact repr_injective hR

theorem exists_fresh_candidate (names : List String) (base : String) :
    ∃ j, j ≤ names.length ∧ candName base j ∉ names := by
  by_contra hcon
  push_neg at hcon
  have hsub : ((List.range (names.length + 1)).map (candName base))
      ⊆ names := by
    intro x hx
    rw [List.mem_map] at hx
    obtain ⟨j, hj, rfl⟩ := hx
    rw [List.mem_range] at hj
    exact hcon j (by omega)
  have hnodup : ((List.range (names.length + 1)).map (candName base)).Nodup :=
    (List.nodup_range _).map (candName_injective base)
  have hcard1 : ((List.range (names.length + 1)).map
      (candName base)).toFinset.card = names.length + 1 := by
    rw [List.toFinset_card_of_nodup hnodup]
    simp
  have hcard2 : ((List.range (names.length + 1)).map
      (candName base)).toFinset ⊆ names.toFinset := by
    intro x hx
    exact List.mem_toFinset.mpr (hsub (List.mem_toFinset.mp hx))
  have := Finset.card_le_card hcard2
  have := List.toFinset_card_le names
  omega

theorem importNameGo_spec (names : List String) (base : String)
    (fuel : Nat) :
    ∀ i : Nat, (∃ j, i ≤ j ∧ j ≤ i + fuel ∧ candName base j ∉ names) →
    ∃ j, importNameGo names base fuel i = candName base j ∧ i ≤ j ∧
      candName base j ∉ names ∧
      ∀ k, i ≤ k → k < j → candName base k ∈ names := by
  induction fuel with
  | zero =>
    intro i h
    obtain ⟨j, hij, hji, hfresh⟩ := h
    have : j = i := by omega
    subst this
    exact ⟨j, rfl, le_refl j, hfresh, fun k h1 h2 => absurd (lt_of_le_of_lt h1 h2) (lt_irrefl j)⟩
  | succ fuel ih =>
    intro i h
    obtain ⟨j, hij, hji, hfresh⟩ := h
    by_cases hmem : candName base i ∈ names
    · have hne : j ≠ i := fun he => hfresh (he ▸ hmem)
      obtain ⟨j2, hgo, hij2, hfresh2, hmin2⟩ :=
        ih (i + 1) ⟨j, by omega, by omega, hfresh⟩
      refine ⟨j2, ?_, by omega, hfresh2, ?_⟩
      · show importNameGo names base (fuel + 1) i = candName base j2
        unfold importNameGo
        rw [if_pos hmem]
        exact hgo
      · intro k hk1 hk2
        by_cases hki : k = i
        · exact hki ▸ hmem
        · exact hmin2 k (by omega) hk2
    · refine ⟨i, ?_, le_refl i, hmem, fun k h1 h2 => absurd (lt_of_le_of_lt h1 h2) (lt_irrefl i)⟩
      show importNameGo names base (fuel + 1) i = candName base i
      unfold importNameGo
      rw [if_neg hmem]

/-- `importName` returns the first fresh candidate: a `j` with
`candName base j` unused while every earlier candidate is used. -/
theorem importName_first_fresh (names : List String) (base : String) :
    ∃ j, importName names base = candName base j ∧
      candName base j ∉ names ∧
      ∀ k < j, candName base k ∈ names := by
  obtain ⟨j0, hj0, hfresh0⟩ := exists_fresh_candidate names base
  obtain ⟨j, hgo, _, hfresh, hmin⟩ := importNameGo_spec names base
    (names.length + 1) 0 ⟨j0, by omega, by omega, hfresh0⟩
  exact ⟨j, hgo, hfresh, fun k hk => hmin k (by omega) hk⟩

/-- Claim C1, counterexample: the claim states that every code below 0 maps to
unknown/?, but `describeWMO (-1)` falls into the `code <= 2` branch and yields
the partly-cloudy pair, not the unknown pair. -/
theorem describeWMO_neg_one_not_unknown :
    describeWMO (-1) = ("partly cloudy", "◑") ∧
      describeWMO (-1) ≠ ("unknown", "?") := by
  constructor
  · decide
  · decide

set_option maxHeartbeats 1600000 in
/-- Claim C1 (amended): `describeWMO` maps 0 to clear/○, every other code at
most 2 — including every negative code — to partly cloudy/◑, 3 to overcast/●,
4-49 to foggy/≋, 50-59 to drizzle, 60-69 to rain, 70-79 to snow, 80-84 to
showers, 85-99 to storm, and every code above 99 to unknown/?. -/
theorem describeWMO_buckets :
    describeWMO 0 = ("clear", "○") ∧
    (∀ c : Int, c ≠ 0 → c ≤ 2 → describeWMO c = ("partly cloudy", "◑")) ∧
    describeWMO 3 = ("overcast", "●") ∧
    (∀ c : Int, 4 ≤ c → c ≤ 49 → describeWMO c = ("foggy", "≋")) ∧
    (∀ c : Int, 50 ≤ c → c ≤ 59 → describeWMO c = ("drizzle", "·")) ∧
    (∀ c : Int, 60 ≤ c → c ≤ 69 → describeWMO c = ("rain", "▾")) ∧
    (∀ c : Int, 70 ≤ c → c ≤ 79 → describeWMO c = ("snow", "✦")) ∧
    (∀ c : Int, 80 ≤ c → c ≤ 84 → describeWMO c = ("showers", "▿")) ∧
    (∀ c : Int, 85 ≤ c → c ≤ 99 → describeWMO c = ("storm", "⚡")) ∧
    (∀ c : Int, 100 ≤ c → describeWMO c = ("unknown", "?")) := by
  refine ⟨by decide, ?_, by decide, ?_, ?_, ?_, ?_, ?_, ?_,
    fun c h1 => by unfold describeWMO; split_ifs <;> first | rfl | omega⟩ <;>
    · intro c h1 h2
      unfold describeWMO
      split_ifs <;> first | rfl | omega

/-- Claim C1 witness: the amended bucket theorem evaluated at the concrete
codes -7 (negative, partly cloudy) and 150 (above 99, unknown). -/
theorem describeWMO_buckets_witness :
    describeWMO (-7) = ("partly cloudy", "◑") ∧
      describeWMO 150 = ("unknown", "?") :=
  ⟨describeWMO_buckets.2.1 (-7) (by decide) (by decide),
   (describeWMO_buckets.2.2.2.2.2.2.2.2.2) 150 (by decide)⟩

set_option maxHeartbeats 1600000 in
/-- Claim C8: for every integer Celsius temperature c with -50 ≤ c ≤ 60,
converting to Fahrenheit by `round(c*9/5+32)` (as `displayTemp` does) and back
via `round((f-32)*5/9)` lands within 1 of c. -/
theorem temp_roundtrip (c : Int) (_h1 : -50 ≤ c) (_h2 : c ≤ 60) :
    (f2c (c2f c) - c).natAbs ≤ 1 := by
  unfold f2c c2f
  omega

/-- Claim C8 witness: the round-trip theorem at c = 25 (which satisfies the
range hypotheses), with the conversions evaluated concretely. -/
theorem temp_roundtrip_witness :
    c2f 25 = 77 ∧ f2c 77 = 25 ∧ (f2c (c2f 25) - 25).natAbs ≤ 1 :=
  ⟨by decide, by decide, temp_roundtrip 25 (by decide) (by decide)⟩

/-- Claim C5: settings persistence round-trips.  Writing any `Settings` value
via `saveSettings` and re-reading it via `initSettings` (a simulated reload)
reconstructs the identical value, and an absent or unparseable stored value
yields the documented defaults (`tempUnit F`, `timeFormat 24h`, engine
google, theme "dark"). -/
theorem settings_roundtrip :
    (∀ s : Settings, initSettings (saveSettings s) = s) ∧
    initSettings none = DEFAULT_SETTINGS ∧
    initSettings (some none) = DEFAULT_SETTINGS := by
  refine ⟨?_, rfl, rfl⟩
  rintro ⟨tu, tf, se, tn⟩
  cases tu <;> cases tf <;> cases se <;> rfl

/-- Claim C6: for every query and selected engine, a query that trims to the
empty string produces no navigation (`handleSearch` is total, so no error
either), and any other query navigates to the engine's fixed base URL
concatenated with the percent-encoding of the trimmed query. -/
theorem handleSearch_spec (settings : Settings) (query : String) :
    (jsTrim query = "" → handleSearch settings query = none) ∧
    (jsTrim query ≠ "" →
      handleSearch settings query
        = some (SEARCH_URLS settings.searchEngine
            ++ encodeURIComponent (jsTrim query))) := by
  constructor
  · intro h
    unfold handleSearch
    simp [h]
  · intro h
    unfold handleSearch
    simp [h]

/-- Claim C6 witness: the search theorem applied to both cases concretely: a
whitespace-only query with bing selected navigates nowhere, and the query
" lean 4 " with google selected navigates to the google base URL plus the
percent-encoded trimmed query ("lean%204"). -/
theorem handleSearch_spec_witness :
    handleSearch ⟨.F, .h24, .bing, "dark"⟩ "   " = none ∧
    handleSearch ⟨.F, .h24, .google, "dark"⟩ " lean 4 "
      = some "https://www.google.com/search?q=lean%204" := by
  constructor
  · exact (handleSearch_spec ⟨.F, .h24, .bing, "dark"⟩ "   ").1 (by decide)
  · have h := (handleSearch_spec ⟨.F, .h24, .google, "dark"⟩ " lean 4 ").2
      (by decide)
    rw [h]
    rfl

theorem hexVal_lt_16 (c : Char) (h : isHexDigitChar c = true) : hexVal c < 16 := by
  have hc : c ∈ hexDigits := of_decide_eq_true h
  fin_cases hc <;> decide

theorem replaceFirstList_hash (l : List Char) :
    replaceFirstList ['#'] [] ('#' :: l) = l := by
  unfold replaceFirstList
  simp [List.isPrefixOf]

/-- Claim C9: for a theme whose accent `b_inv` is "#" followed by six hex
digits, the glow custom property set by `applyTheme` is exactly the string
`rgba(R,G,B,0.12)` where R, G, B are the decimal values of the three bytes of
the hex value; for a 3-digit shorthand "#RGB" each digit is doubled, so the
bytes are 17 times the digit values. -/
theorem applyTheme_glow (colors : ThemeColors) :
    (∀ d0 d1 d2 d3 d4 d5 : Char,
      colors.b_inv.data = ['#', d0, d1, d2, d3, d4, d5] →
      isHexDigitChar d0 = true → isHexDigitChar d1 = true →
      isHexDigitChar d2 = true → isHexDigitChar d3 = true →
      isHexDigitChar d4 = true → isHexDigitChar d5 = true →
      (applyTheme colors).lookup "--green-glow"
        = some (rgbaStr (16 * hexVal d0 + hexVal d1)
            (16 * hexVal d2 + hexVal d3) (16 * hexVal d4 + hexVal d5))) ∧
    (∀ d0 d1 d2 : Char,
      colors.b_inv.data = ['#', d0, d1, d2] →
      isHexDigitChar d0 = true → isHexDigitChar d1 = true →
      isHexDigitChar d2 = true →
      (applyTheme colors).lookup "--green-glow"
        = some (rgbaStr (17 * hexVal d0) (17 * hexVal d1) (17 * hexVal d2))) := by
  have hlook : (applyTheme colors).lookup "--green-glow"
      = some (greenGlow colors.b_inv) := rfl
  constructor
  · intro d0 d1 d2 d3 d4 d5 hdata h0 h1 h2 h3 h4 h5
    have hb : colors.b_inv = ⟨['#', d0, d1, d2, d3, d4, d5]⟩ :=
      congrArg String.mk hdata
    have hv0 := hexVal_lt_16 d0 h0
    have hv1 := hexVal_lt_16 d1 h1
    have hv2 := hexVal_lt_16 d2 h2
    have hv3 := hexVal_lt_16 d3 h3
    have hv4 := hexVal_lt_16 d4 h4
    have hv5 := hexVal_lt_16 d5 h5
    rw [hlook, hb]
    unfold greenGlow
    have hrep : replaceFirst ⟨['#', d0, d1, d2, d3, d4, d5]⟩ "#" ""
        = ⟨[d0, d1, d2, d3, d4, d5]⟩ := by
      unfold replaceFirst
      exact congrArg String.mk (replaceFirstList_hash _)
    rw [hrep]
    have h6 : hexSix ⟨[d0, d1, d2, d3, d4, d5]⟩ = ⟨[d0, d1, d2, d3, d4, d5]⟩ := by
      unfold hexSix
      exact if_neg (of_decide_eq_false (by rfl))
    rw [h6]
    have hparse : parseIntHex ⟨[d0, d1, d2, d3, d4, d5]⟩
        = some (16 * (16 * (16 * (16 * (16 * (16 * 0 + hexVal d0)
            + hexVal d1) + hexVal d2) + hexVal d3) + hexVal d4) + hexVal d5) := by
      unfold parseIntHex
      simp [List.takeWhile, h0, h1, h2, h3, h4, h5, List.foldl]
    rw [hparse]
    have hmod : (16 * (16 * (16 * (16 * (16 * (16 * 0 + hexVal d0)
          + hexVal d1) + hexVal d2) + hexVal d3) + hexVal d4) + hexVal d5)
        % 4294967296
        = 16 * (16 * (16 * (16 * (16 * (16 * 0 + hexVal d0)
            + hexVal d1) + hexVal d2) + hexVal d3) + hexVal d4) + hexVal d5 :=
      Nat.mod_eq_of_lt (by omega)
    show some (rgbaStr _ _ _) = some (rgbaStr _ _ _)
    rw [hmod]
    congr 2
    · have hd : (16 * (16 * (16 * (16 * (16 * (16 * 0 + hexVal d0)
            + hexVal d1) + hexVal d2) + hexVal d3) + hexVal d4) + hexVal d5)
          / 65536 = 16 * hexVal d0 + hexVal d1 := by omega
      rw [hd]
      omega
    · have hd : (16 * (16 * (16 * (16 * (16 * (16 * 0 + hexVal d0)
            + hexVal d1) + hexVal d2) + hexVal d3) + hexVal d4) + hexVal d5)
          / 256 = 256 * (16 * hexVal d0 + hexVal d1)
            + (16 * hexVal d2 + hexVal d3) := by omega
      rw [hd]
      omega
    · omega
  · intro d0 d1 d2 hdata h0 h1 h2
    have hb : colors.b_inv = ⟨['#', d0, d1, d2]⟩ :=
      congrArg String.mk hdata
    have hv0 := hexVal_lt_16 d0 h0
    have hv1 := hexVal_lt_16 d1 h1
    have hv2 := hexVal_lt_16 d2 h2
    rw [hlook, hb]
    unfold greenGlow
    have hrep : replaceFirst ⟨['#', d0, d1, d2]⟩ "#" "" = ⟨[d0, d1, d2]⟩ := by
      unfold replaceFirst
      exact congrArg String.mk (replaceFirstList_hash _)
    rw [hrep]
    have h6 : hexSix ⟨[d0, d1, d2]⟩ = ⟨[d0, d0, d1, d1, d2, d2]⟩ := by
      unfold hexSix
      rw [if_pos (show (String.mk [d0, d1, d2]).length = 3 from rfl)]
      rfl
    rw [h6]
    have hparse : parseIntHex ⟨[d0, d0, d1, d1, d2, d2]⟩
        = some (16 * (16 * (16 * (16 * (16 * (16 * 0 + hexVal d0)
            + hexVal d0) + hexVal d1) + hexVal d1) + hexVal d2) + hexVal d2) := by
      unfold parseIntHex
      simp [List.takeWhile, h0, h1, h2, List.foldl]
    rw [hparse]
    have hmod : (16 * (16 * (16 * (16 * (16 * (16 * 0 + hexVal d0)
          + hexVal d0) + hexVal d1) + hexVal d1) + hexVal d2) + hexVal d2)
        % 4294967296
        = 16 * (16 * (16 * (16 * (16 * (16 * 0 + hexVal d0)
            + hexVal d0) + hexVal d1) + hexVal d1) + hexVal d2) + hexVal d2 :=
      Nat.mod_eq_of_lt (by omega)
    show some (rgbaStr _ _ _) = some (rgbaStr _ _ _)
    rw [hmod]
    congr 2
    · have hd : (16 * (16 * (16 * (16 * (16 * (16 * 0 + hexVal d0)
            + hexVal d0) + hexVal d1) + hexVal d1) + hexVal d2) + hexVal d2)
          / 65536 = 17 * hexVal d0 := by omega
      rw [hd]
      omega
    · have hd : (16 * (16 * (16 * (16 * (16 * (16 * 0 + hexVal d0)
            + hexVal d0) + hexVal d1) + hexVal d1) + hexVal d2) + hexVal d2)
          / 256 = 256 * (17 * hexVal d0) + 17 * hexVal d1 := by omega
      rw [hd]
      omega
    · omega

/-- Claim C9 witness: the glow theorem applied to the dark theme's accent
"#4ade80" (bytes 74, 222, 128) and to a theme with the 3-digit accent "#f80"
(bytes 255, 136, 0), with both conclusions evaluated to the literal rgba
strings. -/
theorem applyTheme_glow_witness :
    (applyTheme firstBuiltin.colors).lookup "--green-glow"
      = some "rgba(74,222,128,0.12)" ∧
    (applyTheme { firstBuiltin.colors with b_inv := "#f80" }).lookup
        "--green-glow"
      = some "rgba(255,136,0,0.12)" := by
  constructor
  · have h := (applyTheme_glow firstBuiltin.colors).1 '4' 'a' 'd' 'e' '8' '0'
      rfl (by decide) (by decide) (by decide) (by decide) (by decide)
      (by decide)
    rw [h]
    rfl
  · have h := (applyTheme_glow { firstBuiltin.colors with b_inv := "#f80" }).2
      'f' '8' '0' rfl (by decide) (by decide) (by decide)
    rw [h]
    rfl

/-- Claim C10: active-theme resolution is total.  `activeTheme` always yields
an entry of the catalog (it is a total function into `ThemeEntry`, so theme
application always receives a defined 9-colour record), and whenever
`settings.themeName` matches no built-in or custom entry — dangling for any
reason, not only after a deletion — the resolved theme is the first built-in
entry, whose name is "dark". -/
theorem activeTheme_total (st : AppState) :
    activeTheme st ∈ allThemes st ∧
    ((∀ t ∈ allThemes st, t.name ≠ st.settings.themeName) →
      activeTheme st = firstBuiltin ∧ firstBuiltin.name = "dark") := by
  constructor
  · unfold activeTheme
    cases hfind : (allThemes st).find? (fun t => t.name = st.settings.themeName) with
    | some t => exact List.mem_of_find?_eq_some hfind
    | none =>
      show firstBuiltin ∈ allThemes st
      unfold allThemes firstBuiltin
      exact List.mem_append_left _ (by decide)
  · intro hnone
    have hfind : (allThemes st).find? (fun t => t.name = st.settings.themeName)
        = none := by
      apply List.find?_eq_none.mpr
      intro t ht
      simpa using hnone t ht
    unfold activeTheme
    rw [hfind]
    exact ⟨rfl, rfl⟩

/-- Claim C10 witness: the resolution theorem applied to a state whose
`themeName` ("no-such-theme") matches no catalog entry: the dangling name
resolves to the dark built-in theme. -/
theorem activeTheme_total_witness :
    activeTheme ⟨⟨.F, .h24, .google, "no-such-theme"⟩, []⟩ = firstBuiltin ∧
      firstBuiltin.name = "dark" :=
  (activeTheme_total ⟨⟨.F, .h24, .google, "no-such-theme"⟩, []⟩).2 (by decide)

/-- Claim C4: deletion succeeds only for custom themes (a name that is not in
the custom list leaves the state unchanged); deleting a custom theme removes
exactly the entries with that name from the persisted custom list (every other
entry survives, and every survivor is an original entry with a different
name); and if the deleted theme was the active one, the active theme name is
reset to the default built-in name "dark". -/
theorem handleDelete_spec (st : AppState) (n : String) :
    ((∀ t ∈ st.customThemes, t.name ≠ n) → handleDelete st n = st) ∧
    ((∃ t ∈ st.customThemes, t.name = n) →
      (handleDelete st n).customThemes
          = st.customThemes.filter (fun t => t.name ≠ n) ∧
      (st.settings.themeName = n →
        (handleDelete st n).settings.themeName = "dark")) := by
  constructor
  · intro hnot
    have hfind : st.customThemes.find? (fun t => t.name = n) = none := by
      apply List.find?_eq_none.mpr
      intro t ht
      simpa using hnot t ht
    unfold handleDelete
    rw [hfind]
    simp
  · intro hsome
    obtain ⟨t0, ht0mem, ht0name⟩ := hsome
    have hiss : (st.customThemes.find? (fun t => t.name = n)).isSome := by
      apply List.find?_isSome.mpr
      exact ⟨t0, ht0mem, by simp [ht0name]⟩
    unfold handleDelete
    rw [if_pos hiss]
    refine ⟨?_, fun _ => rfl⟩
    show (onDelete st n).customThemes = _
    unfold onDelete
    split <;> rfl

/-- Claim C4 witness: deleting the active custom theme "mine" from a state
with one custom entry empties the custom list and resets the active theme to
"dark"; the theorem is applied with its existence hypothesis discharged at
that concrete state. -/
theorem handleDelete_spec_witness :
    (handleDelete
        ⟨⟨.F, .h24, .google, "mine"⟩,
         [⟨"mine", "mine", "Custom", firstBuiltin.colors, true⟩]⟩
        "mine").customThemes
      = ([⟨"mine", "mine", "Custom", firstBuiltin.colors, true⟩]
          : List ThemeEntry).filter (fun t => t.name ≠ "mine") ∧
    (handleDelete
        ⟨⟨.F, .h24, .google, "mine"⟩,
         [⟨"mine", "mine", "Custom", firstBuiltin.colors, true⟩]⟩
        "mine").settings.themeName = "dark" := by
  have h := (handleDelete_spec
    ⟨⟨.F, .h24, .google, "mine"⟩,
     [⟨"mine", "mine", "Custom", firstBuiltin.colors, true⟩]⟩ "mine").2
    ⟨⟨"mine", "mine", "Custom", firstBuiltin.colors, true⟩, by decide, rfl⟩
  exact ⟨h.1, h.2 rfl⟩

/-- Claim C3, counterexample: the claim defines the base name B as the file
name with the `.svg` extension stripped, but the code removes the FIRST
occurrence of ".svg": dropping a (collision-free) file named "x.svgy.svg"
stores a theme named "xy.svg", not the extension-stripped "x.svgy". -/
theorem onDrop_base_not_extension_stripped :
    replaceFirst "x.svgy.svg" ".svg" "" = "xy.svg" ∧
    (onDrop ⟨⟨.F, .h24, .google, "dark"⟩, []⟩ "x.svgy.svg"
        (generateSVG "x" firstBuiltin.colors)).customThemes.map
          ThemeEntry.name = ["xy.svg"] ∧
    ("xy.svg" : String) ≠ "x.svgy" := by
  refine ⟨rfl, ?_, by decide⟩
  rfl

/-- Claim C3 (amended): with B the file name with the first occurrence of
".svg" removed (which equals stripping the extension whenever ".svg" occurs
only as the extension), a successful import stores and activates the first
fresh name in the sequence B, B-1, B-2, … measured against all existing
theme names, built-in and custom; in particular importing two files with the
same base name yields the two distinct names B and B-1. -/
theorem onDrop_unique_name (st : AppState) (fileName text : String)
    (colors : ThemeColors)
    (hsvg : jsEndsWith fileName ".svg" = true)
    (hparse : parseSVGTheme text = some colors) :
    ∃ j,
      (onDrop st fileName text).settings.themeName
          = candName (replaceFirst fileName ".svg" "") j ∧
      (onDrop st fileName text).customThemes
          = st.customThemes ++
            [⟨candName (replaceFirst fileName ".svg" "") j,
              candName (replaceFirst fileName ".svg" "") j, "Custom",
              colors, true⟩] ∧
      candName (replaceFirst fileName ".svg" "") j
          ∉ (allThemes st).map ThemeEntry.name ∧
      ∀ k < j, candName (replaceFirst fileName ".svg" "") k
          ∈ (allThemes st).map ThemeEntry.name := by
  obtain ⟨j, hgo, hfresh, hmin⟩ := importName_first_fresh
    ((allThemes st).map ThemeEntry.name) (replaceFirst fileName ".svg" "")
  refine ⟨j, ?_, ?_, hfresh, hmin⟩
  · unfold onDrop
    rw [if_pos hsvg, hparse]
    exact hgo
  · unfold onDrop
    rw [if_pos hsvg, hparse]
    rw [hgo]

/-- Claim C3 witness: the amended theorem applied to a clean state and the
file "mytheme.svg" carrying a well-formed palette, with both hypotheses
discharged by evaluation. -/
theorem onDrop_unique_name_witness :
    (∃ j,
      (onDrop ⟨⟨.F, .h24, .google, "dark"⟩, []⟩ "mytheme.svg"
          (generateSVG "dark" firstBuiltin.colors)).settings.themeName
          = candName (replaceFirst "mytheme.svg" ".svg" "") j ∧
      (onDrop ⟨⟨.F, .h24, .google, "dark"⟩, []⟩ "mytheme.svg"
          (generateSVG "dark" firstBuiltin.colors)).customThemes
          = ([] : List ThemeEntry) ++
            [⟨candName (replaceFirst "mytheme.svg" ".svg" "") j,
              candName (replaceFirst "mytheme.svg" ".svg" "") j, "Custom",
              firstBuiltin.colors, true⟩] ∧
      candName (replaceFirst "mytheme.svg" ".svg" "") j
          ∉ (allThemes ⟨⟨.F, .h24, .google, "dark"⟩, []⟩).map
              ThemeEntry.name ∧
      ∀ k < j, candName (replaceFirst "mytheme.svg" ".svg" "") k
          ∈ (allThemes ⟨⟨.F, .h24, .google, "dark"⟩, []⟩).map
              ThemeEntry.name) ∧
    ((onDrop (onDrop ⟨⟨.F, .h24, .google, "dark"⟩, []⟩ "mytheme.svg"
          (generateSVG "dark" firstBuiltin.colors)) "mytheme.svg"
          (generateSVG "dark" firstBuiltin.colors)).customThemes.map
            ThemeEntry.name = ["mytheme", "mytheme-1"]) := by
  constructor
  · exact onDrop_unique_name ⟨⟨.F, .h24, .google, "dark"⟩, []⟩
      "mytheme.svg" (generateSVG "dark" firstBuiltin.colors)
      firstBuiltin.colors (by rfl) (by rfl)
  · rfl

/-- Claim C7: a dropped file whose content parses with an error, or in whose
document any of the nine required identifiers is missing or lacks a `fill`
attribute (`getFill` is `none` exactly in those cases), makes
`parseSVGTheme` return null; and any drop whose content fails to parse
leaves the whole state — custom theme list and settings — unchanged, with no
error surfaced (`onDrop` is total). -/
theorem parseSVGTheme_malformed :
    (∀ svg : String,
      (hasParserError svg = true ∨ ∃ id ∈ requiredIds, getFill svg id = none) →
      parseSVGTheme svg = none) ∧
    (∀ (st : AppState) (fileName text : String),
      parseSVGTheme text = none → onDrop st fileName text = st) := by
  constructor
  · intro svg h
    unfold parseSVGTheme
    rcases h with h | ⟨id, hid, hnone⟩
    · rw [h]
      rfl
    · by_cases hp : hasParserError svg = true
      · rw [hp]
        rfl
      · rw [Bool.not_eq_true] at hp
        rw [hp, if_neg Bool.false_ne_true]
        fin_cases hid <;> rw [hnone] <;>
          simp [parseFills, strTruthy]
  · intro st fileName text h
    unfold onDrop
    by_cases he : jsEndsWith fileName ".svg" = true
    · rw [if_pos he, h]
    · rw [if_neg he]

/-- Claim C7 witness: the malformed-import theorem applied to the concrete
document `<svg></svg>` (no `background` element, so its `getFill` is null)
dropped as "bad.svg" onto a clean state: the parse is null and the state is
unchanged. -/
theorem parseSVGTheme_malformed_witness :
    parseSVGTheme "<svg></svg>" = none ∧
    onDrop ⟨⟨.F, .h24, .google, "dark"⟩, []⟩ "bad.svg" "<svg></svg>"
      = ⟨⟨.F, .h24, .google, "dark"⟩, []⟩ := by
  have h1 := parseSVGTheme_malformed.1 "<svg></svg>"
    (Or.inr ⟨"background", by decide, by rfl⟩)
  exact ⟨h1, parseSVGTheme_malformed.2 ⟨⟨.F, .h24, .google, "dark"⟩, []⟩
    "bad.svg" "<svg></svg>" h1⟩

end Website
